import Mathlib

/-!
Verification development for `bluetti_mqtt/mqtt_client.py` (the MQTT bridge of
the `bluetti_mqtt` repository).

Shallow embedding conventions:
* `datetime` values are modelled as integer microseconds since an arbitrary
  epoch (Python datetimes have microsecond resolution, so this is exact).
  Subtraction of datetimes yields a `timedelta`; its `.microseconds` attribute
  is the normalized microsecond component, i.e. the total signed microsecond
  count floor-modulo 1000000 (`tdMicroseconds` below).
* Python float arithmetic is modelled over `ℚ`.  Every concrete evaluation in
  the theorems below uses values that are exactly representable and far from
  rounding ties, so the conclusions are insensitive to the float/rational gap.
* Python `round(x, 2)` (round-half-to-even to 2 decimal places) is modelled by
  `round2`.
* Byte strings (MQTT payloads, encoded values) are modelled as `String`
  (the bridge only ever handles ASCII payloads).
* The dictionaries `value_cache` and `calculated_energy` are *class*
  attributes of `MQTTClient` (lines 20-23 of the source): they are shared by
  every instance, and `__init__` (lines 67-81) only assigns connection
  parameters.  The embedding therefore threads one `BridgeState` value through
  all operations, and instance construction (`mqttClientConstruct`) leaves it
  untouched.
* Fallible Python code (uncaught `KeyError` lookups, exceptions escaping
  `_handle_command`) is modelled with `Except Unit` / an explicit `crashed`
  result.
-/

namespace BluettiMqtt

/-- `SECONDS_PER_HOUR = 3600` (source line 16). -/
def SECONDS_PER_HOUR : ℚ := 3600

/-- `MICROSECONDS_PER_SECOND = 1000000` (source line 17). -/
def MICROSECONDS_PER_SECOND : ℚ := 1000000

/-- The `.microseconds` attribute of a Python `timedelta` whose total length
is `delta` microseconds: `timedelta` is normalized to
`(days, seconds, microseconds)` with `0 ≤ microseconds < 10^6`, so the
attribute equals the total microsecond count floor-modulo `10^6` (always
nonnegative, even for negative deltas). -/
def tdMicroseconds (delta : ℤ) : ℤ := delta % 1000000

/-- Round a rational to the nearest integer, ties to even (the semantics of
Python `round` on floats, idealized over `ℚ`). -/
def roundHalfEven (x : ℚ) : ℤ :=
  let n : ℤ := ⌊x⌋
  let f : ℚ := x - (n : ℚ)
  if f < 1 / 2 then n
  else if 1 / 2 < f then n + 1
  else if n % 2 = 0 then n else n + 1

/-- Python `round(x, 2)`. -/
def round2 (x : ℚ) : ℚ := (roundHalfEven (x * 100) : ℚ) / 100

/-- A value stored in `value_cache` / sent as an MQTT payload.  Energy
publications store the raw Python float (`num`); everything else stores an
encoded byte string (`bytes`). -/
inductive Payload where
  | num (q : ℚ)
  | bytes (s : String)
deriving DecidableEq, Repr

/-- One outbound MQTT publication: the topic, the cache key it was
deduplicated under, and the payload value. -/
structure Pub where
  topic : String
  key : String
  value : Payload
deriving DecidableEq, Repr

/-- The `value_cache` class attribute: a dict from cache key to the last
value stored for it (source line 22). -/
def Cache := String → Option Payload

def Cache.empty : Cache := fun _ => none

/-- `MQTTClient._update_value` (source lines 357-364): publish-if-changed.
`value_cache.get(key, None) != value` is `true` exactly when the stored
`Option Payload` differs from `some value`; in that case the new value is
stored and published. -/
def update_value (cache : Cache) (topic key : String) (value : Payload) :
    Cache × List Pub :=
  if cache key ≠ some value then
    (fun k => if k = key then some value else cache k, [⟨topic, key, value⟩])
  else
    (cache, [])

/-- `MQTTClient.EnergyEntry` (source lines 25-30).  `last_value` and
`last_value_ts` are *class* attributes of the dataclass (they carry no type
annotation), so every fresh entry starts with `last_value = 0` and
`last_value_ts` equal to the single `datetime.now()` evaluated at class
definition time (process start), written `t0` below. -/
structure EnergyEntry where
  last_value : ℚ
  watt_seconds_total : ℚ
  last_value_ts : ℤ
deriving DecidableEq, Repr

/-- A fresh `EnergyEntry()` in a process whose class-definition timestamp is
`t0`. -/
def EnergyEntry.fresh (t0 : ℤ) : EnergyEntry :=
  { last_value := 0, watt_seconds_total := 0, last_value_ts := t0 }

/-- The `calculated_energy` class attribute (source line 23). -/
def EnergyMap := String → Option EnergyEntry

/-- The process-wide mutable state of the bridge: the two class-attribute
dicts of `MQTTClient`. -/
structure BridgeState where
  value_cache : Cache
  calculated_energy : EnergyMap

/-- The state of a freshly started process: both class-attribute dicts are
empty. -/
def BridgeState.initial : BridgeState :=
  { value_cache := Cache.empty, calculated_energy := fun _ => none }

/-- `calculated_energy.get(key, EnergyEntry()).watt_seconds_total`: the
accumulated watt-seconds for a key, a missing entry counting as zero
(source lines 399-408). -/
def wsOfMap (em : EnergyMap) (k : String) : ℚ :=
  match em k with
  | some e => e.watt_seconds_total
  | none => 0

/-- Accumulated watt-seconds for a key in a bridge state. -/
def wsOf (st : BridgeState) (k : String) : ℚ := wsOfMap st.calculated_energy k

def ac_input_power_key : String := "ac_input_power"
def dc_input_power_key : String := "dc_input_power"
def ac_output_power_key : String := "ac_output_power"
def dc_output_power_key : String := "dc_output_power"
def ac_input_energy_key : String := "ac_input_energy"
def dc_input_energy_key : String := "dc_input_energy"
def ac_output_energy_key : String := "ac_output_energy"
def dc_output_energy_key : String := "dc_output_energy"
def total_input_energy_key : String := "total_input_energy"
def total_output_energy_key : String := "total_output_energy"

/-- `MQTTClient._update_energy` (source lines 389-409), for a process whose
`EnergyEntry` class-definition timestamp is `t0`:
if `current_value != 0`, fetch-or-create the entry for `energy_key`
(`setdefault`), add `(now - last_value_ts).microseconds *
((last_value + current_value) / 2) / MICROSECONDS_PER_SECOND` to
`watt_seconds_total`, set `last_value_ts = now` and `last_value =
current_value`, publish `round(watt_seconds_total / 3600, 2)` through
`_update_value`, then recompute and publish both totals from the (already
mutated) `calculated_energy` dict.  If `current_value == 0` nothing happens. -/
def update_energy (t0 : ℤ) (st : BridgeState) (now : ℤ)
    (topicPfx energyKey : String) (currentValue : ℚ) :
    BridgeState × List Pub :=
  if currentValue ≠ 0 then
    let entry := (st.calculated_energy energyKey).getD (EnergyEntry.fresh t0)
    let ws := entry.watt_seconds_total +
      ((tdMicroseconds (now - entry.last_value_ts) : ℚ) *
        ((entry.last_value + currentValue) / 2)) / MICROSECONDS_PER_SECOND
    let em : EnergyMap := fun k =>
      if k = energyKey then
        some { last_value := currentValue, watt_seconds_total := ws,
               last_value_ts := now }
      else st.calculated_energy k
    let r1 := update_value st.value_cache (topicPfx ++ energyKey) energyKey
      (.num (round2 (ws / SECONDS_PER_HOUR)))
    let totalIn := wsOfMap em ac_input_energy_key + wsOfMap em dc_input_energy_key
    let r2 := update_value r1.1 (topicPfx ++ total_input_energy_key)
      total_input_energy_key (.num (round2 (totalIn / SECONDS_PER_HOUR)))
    let totalOut := wsOfMap em ac_output_energy_key + wsOfMap em dc_output_energy_key
    let r3 := update_value r2.1 (topicPfx ++ total_output_energy_key)
      total_output_energy_key (.num (round2 (totalOut / SECONDS_PER_HOUR)))
    (⟨r3.1, em⟩, r1.2 ++ r2.2 ++ r3.2)
  else (st, [])

def pack_battery_percent_key : String := "pack_battery_percent"
def cell_voltages_key : String := "cell_voltages"
def pack_num_key : String := "pack_num"
def ups_mode_key : String := "ups_mode"
def auto_sleep_mode_key : String := "auto_sleep_mode"
def led_mode_key : String := "led_mode"
def ac_output_on_key : String := "ac_output_on"
def dc_output_on_key : String := "dc_output_on"
def grid_charge_on_key : String := "grid_charge_on"
def time_control_on_key : String := "time_control_on"
def ac_output_mode_key : String := "ac_output_mode"
def on_literal : String := "ON"
def off_literal : String := "OFF"

/-- A parsed telemetry value (`msg.parsed[key]`): a number, a boolean, an
enum member (kept as its `.name`), or a list of numbers (cell voltages). -/
inductive FieldValue where
  | num (q : ℚ)
  | boolean (b : Bool)
  | enum (name : String)
  | numlist (l : List ℚ)
deriving DecidableEq, Repr

/-- Python truthiness of a parsed value (used by the `'ON' if … else 'OFF'`
formatting lambdas). -/
def truthy : FieldValue → Bool
  | .num q => decide (q ≠ 0)
  | .boolean b => b
  | .enum s => !s.isEmpty
  | .numlist l => !l.isEmpty

/-- Deterministic stand-in for Python `str()` applied to a number.  No claim
depends on the exact decimal rendering, only on its (in)equality for equal
and distinct numbers, which this injective encoding preserves. -/
def encodeNum (q : ℚ) : String := toString q.num ++ ":" ++ toString q.den

/-- `.name` of an enum-valued field.  (Applying `.name` to a non-enum value
would raise `AttributeError` in Python; the claims never exercise that.) -/
def enumName : FieldValue → String
  | .enum s => s
  | _ => ""

/-- Python `str(b'NAME')`, the `ups_mode` formatting quirk of source line 53:
the bytes object is re-stringified, yielding `b'NAME'` as text. -/
def pyBytesRepr (s : String) : String :=
  "b" ++ String.singleton (Char.ofNat 39) ++ s ++ String.singleton (Char.ofNat 39)

/-- Python `str()` of a parsed value (numbers, booleans, enum members). -/
def formatValue : FieldValue → String
  | .num q => encodeNum q
  | .boolean b => if b then "True" else "False"
  | .enum s => s
  | .numlist l => "[" ++ String.intercalate ", " (l.map encodeNum) ++ "]"

/-- The formatting lambdas of the `message_parsers` table (source lines
32-60), dispatched by key: the four switch fields format by truthiness as
`ON`/`OFF`; `ac_output_mode`, `auto_sleep_mode`, `led_mode` use the enum
member name; `ups_mode` stringifies the *encoded bytes* (source line 53
quirk); every other entry is `str(msg.parsed[key]).encode()`. -/
def formatParsed (key : String) (v : FieldValue) : String :=
  if key = ac_output_on_key ∨ key = dc_output_on_key ∨
      key = grid_charge_on_key ∨ key = time_control_on_key then
    (if truthy v then on_literal else off_literal)
  else if key = ac_output_mode_key ∨ key = auto_sleep_mode_key ∨
      key = led_mode_key then
    enumName v
  else if key = ups_mode_key then
    pyBytesRepr (enumName v)
  else
    formatValue v

/-- The keys of the `message_parsers` dict, in source (insertion) order
(source lines 32-60); `_handle_message` iterates them in this order. -/
def message_parser_keys : List String :=
  [ac_input_power_key, dc_input_power_key, ac_output_power_key,
   dc_output_power_key, "total_battery_percent", ac_output_on_key,
   dc_output_on_key, ac_output_mode_key, "internal_ac_voltage",
   "internal_current_one", "internal_power_one", "internal_ac_frequency",
   "internal_current_two", "internal_power_two", "ac_input_voltage",
   "internal_current_three", "internal_power_three", "ac_input_frequency",
   "internal_dc_input_voltage", "internal_dc_input_power",
   "internal_dc_input_current", ups_mode_key, grid_charge_on_key,
   time_control_on_key, "battery_range_start", "battery_range_end",
   auto_sleep_mode_key, led_mode_key]

/-- The `energy_counters` dict (source lines 61-65): power field ↦ energy
field, in insertion order. -/
def energy_counters : List (String × String) :=
  [(ac_input_power_key, ac_input_energy_key),
   (dc_input_power_key, dc_input_energy_key),
   (ac_output_power_key, ac_output_energy_key),
   (dc_output_power_key, dc_output_energy_key)]

/-- A `ParserMessage` from the event bus: the reporting device's identity and
the parsed field mapping. -/
structure ParserMessage where
  deviceType : String
  deviceSn : String
  parsed : String → Option FieldValue

/-- The cell-voltage list of a parsed value (`[float(d) for d in …]`,
source line 378).  Iterating a non-list would raise `TypeError` in Python;
the claims only concern well-typed events and missing keys. -/
def floatsOf : FieldValue → List ℚ
  | .numlist l => l
  | _ => []

/-- `json.dumps(pack_details, separators=(',', ':'))` for the composite pack
value (source lines 376-382). -/
def packJson (percent : FieldValue) (voltages : List ℚ) : String :=
  "\x7b\"percent\":" ++ formatValue percent ++ ",\"voltages\":[" ++
    String.intercalate "," (voltages.map encodeNum) ++ "]\x7d"

/-- The pack-details branch of `_handle_message` (source lines 375-382).
If `pack_battery_percent` is present, the dict literal looks up
`cell_voltages` and then `pack_num` with plain indexing — a missing key
raises an uncaught `KeyError`, modelled as `Except.error ()`. -/
def packStep (st : BridgeState) (topicPfx : String) (msg : ParserMessage) :
    Except Unit (BridgeState × List Pub) :=
  match msg.parsed pack_battery_percent_key with
  | none => .ok (st, [])
  | some percent =>
    match msg.parsed cell_voltages_key with
    | none => .error ()
    | some cv =>
      match msg.parsed pack_num_key with
      | none => .error ()
      | some pn =>
        let packKey := "pack_details" ++ formatValue pn
        let u := update_value st.value_cache (topicPfx ++ packKey) packKey
          (.bytes (packJson percent (floatsOf cv)))
        .ok (⟨u.1, st.calculated_energy⟩, u.2)

/-- The energy loop of `_handle_message` (source lines 371-373): for each
`(power, energy)` pair of `energy_counters`, if the power field is present,
run `_update_energy` on its value.  Power fields are numbers per the device
interface; a non-numeric value (which would raise `TypeError` in Python) is
outside the claims' scope and skipped here. -/
def energyLoop (t0 : ℤ) (now : ℤ) (topicPfx : String) (msg : ParserMessage)
    (acc : BridgeState × List Pub) : BridgeState × List Pub :=
  energy_counters.foldl (fun acc pe =>
    match msg.parsed pe.1 with
    | some (.num q) =>
      let r := update_energy t0 acc.1 now topicPfx pe.2 q
      (r.1, acc.2 ++ r.2)
    | _ => acc) acc

/-- The recognized-field loop of `_handle_message` (source lines 384-387):
for each key of `message_parsers` present in the event, format it and
publish through `_update_value`. -/
def parserLoop (topicPfx : String) (msg : ParserMessage)
    (acc : BridgeState × List Pub) : BridgeState × List Pub :=
  message_parser_keys.foldl (fun acc key =>
    match msg.parsed key with
    | some v =>
      let u := update_value acc.1.value_cache (topicPfx ++ key) key
        (.bytes (formatParsed key v))
      (⟨u.1, acc.1.calculated_energy⟩, acc.2 ++ u.2)
    | none => acc) acc

/-- `MQTTClient._handle_message` (source lines 366-387): energy loop, then
the pack-details branch (which can fail with a `KeyError`), then the
recognized-field loop.  `now` is the single `datetime.now()` taken at entry
(source line 369). -/
def handle_message (t0 : ℤ) (st : BridgeState) (now : ℤ)
    (msg : ParserMessage) : Except Unit (BridgeState × List Pub) :=
  let topicPfx := "bluetti/state/" ++ msg.deviceType ++ "-" ++ msg.deviceSn ++ "/"
  let r1 := energyLoop t0 now topicPfx msg (st, [])
  match packStep r1.1 topicPfx msg with
  | .error e => .error e
  | .ok r2 => .ok (parserLoop topicPfx msg (r2.1, r1.2 ++ r2.2))

/-- Process a sequence of telemetry events (each with its `datetime.now()`)
through the single shared bridge state, stopping at the first uncaught
exception. -/
def runMessages (t0 : ℤ) (st : BridgeState) :
    List (ℤ × ParserMessage) → Except Unit (BridgeState × List Pub)
  | [] => .ok (st, [])
  | (now, m) :: rest =>
    match handle_message t0 st now m with
    | .error e => .error e
    | .ok r =>
      match runMessages t0 r.1 rest with
      | .error e => .error e
      | .ok r2 => .ok (r2.1, r.2 ++ r2.2)

/-- Feed a sequence of raw power samples `(now, energy_key, power)` directly
through `_update_energy` against the shared bridge state. -/
def runEnergySamples (t0 : ℤ) (topicPfx : String) (st : BridgeState) :
    List (ℤ × String × ℚ) → BridgeState × List Pub
  | [] => (st, [])
  | (now, k, v) :: rest =>
    let r := update_energy t0 st now topicPfx k v
    let r2 := runEnergySamples t0 topicPfx r.1 rest
    (r2.1, r.2 ++ r2.2)

/-- `MQTTClient.__init__` (source lines 67-81) assigns only the device list
and connection parameters; `value_cache` and `calculated_energy` are class
attributes (source lines 20-23), so constructing a new instance leaves the
shared bridge state unchanged. -/
def mqttClientConstruct (st : BridgeState) : BridgeState := st

/-- `\w` of `COMMAND_TOPIC_RE` (ASCII range; the bridge's topics are ASCII). -/
def isWordChar (c : Char) : Bool := c.isAlphanum || c == '_'

/-- `[a-z_]` of `COMMAND_TOPIC_RE`. -/
def isFieldChar (c : Char) : Bool := ('a' ≤ c && c ≤ 'z') || c == '_'

/-- Strip a literal character prefix, or fail. -/
def stripLit : List Char → List Char → Option (List Char)
  | [], l => some l
  | _ :: _, [] => none
  | p :: ps, c :: cs => if c == p then stripLit ps cs else none

/-- Split a character list on a separator (Python `str.split(sep)` on a
single character): always returns at least one (possibly empty) part. -/
def splitOnChar (sep : Char) : List Char → List (List Char)
  | [] => [[]]
  | c :: rest =>
    let r := splitOnChar sep rest
    if c == sep then [] :: r
    else
      match r with
      | [] => [[c]]
      | h :: t => (c :: h) :: t

/-- `COMMAND_TOPIC_RE.match` (source line 15):
`^bluetti/command/(\w+)-(\d+)/([a-z_]+)$`, returning the three groups.
Because `\w`, `\d` and `[a-z_]` all exclude `/`, and `\w`, `\d` exclude `-`,
a matching topic decomposes uniquely: after the literal prefix there is
exactly one `/` (separating `type-sn` from `field`) and exactly one `-`
inside `type-sn`, so greedy matching and this deterministic parse agree on
every input. -/
def parseCommandTopic (topic : String) : Option (String × String × String) :=
  match stripLit ("bluetti/command/").data topic.data with
  | none => none
  | some rest =>
    match splitOnChar '/' rest with
    | [typeSn, fieldCs] =>
      match splitOnChar '-' typeSn with
      | [tyCs, snCs] =>
        if !tyCs.isEmpty && tyCs.all isWordChar &&
            !snCs.isEmpty && snCs.all (fun c => c.isDigit) &&
            !fieldCs.isEmpty && fieldCs.all isFieldChar then
          some (String.mk tyCs, String.mk snCs, String.mk fieldCs)
        else none
      | _ => none
    | _ => none

/-- A value passed to `build_setter_command`: ASCII text for the enum-name
fields, a boolean for the switch fields. -/
inductive CmdValue where
  | str (s : String)
  | onOff (b : Bool)
deriving DecidableEq, Repr

/-- An opaque device command object (`DeviceCommand` lives outside this
module; its structure is never inspected by the bridge). -/
structure DeviceCommand where
  id : ℕ
deriving DecidableEq, Repr

/-- The externally owned device abstraction at its interface boundary
(spec §3): identity, the writable-field predicate, and the fallible command
builder (`buildSetterCommand(field, value) -> Command | error`); a refusal
surfaces as an exception in Python, modelled as `Except.error ()`. -/
structure BluettiDevice where
  type : String
  sn : String
  has_field_setter : String → Bool
  build_setter_command : String → CmdValue → Except Unit DeviceCommand

/-- An inbound MQTT command message: topic and (ASCII) byte payload. -/
structure MqttMessage where
  topic : String
  payload : String

/-- Outcome of `_handle_command` on one message: dropped with a logged
warning, exactly one `CommandRequest` put on the bus, or an uncaught
exception escaping the handler (crashing the router task). -/
inductive RouterResult where
  | dropped (warning : String)
  | emitted (device : BluettiDevice) (cmd : DeviceCommand)
  | crashed

def RouterResult.isDropped : RouterResult → Bool
  | .dropped _ => true
  | _ => false

def RouterResult.isEmitted : RouterResult → Bool
  | .emitted _ _ => true
  | _ => false

def RouterResult.isCrashed : RouterResult → Bool
  | .crashed => true
  | _ => false

/-- `next((d for d in self.devices if d.type == m[1] and d.sn == m[2]), None)`
(source lines 129-130). -/
def findDevice (devices : List BluettiDevice) (ty sn : String) :
    Option BluettiDevice :=
  devices.find? (fun d => d.type == ty && d.sn == sn)

/-- The three enum-name setter fields of the dispatch on source line 142. -/
def isEnumSetterField (f : String) : Bool :=
  f == ups_mode_key || f == auto_sleep_mode_key || f == led_mode_key

/-- The four boolean-switch setter fields of the dispatch on source line 145. -/
def isSwitchSetterField (f : String) : Bool :=
  f == ac_output_on_key || f == dc_output_on_key ||
    f == grid_charge_on_key || f == time_control_on_key

/-- `MQTTClient._handle_command` (source lines 121-153): match the topic
against `COMMAND_TOPIC_RE` (drop with a warning on mismatch), resolve the
device (drop on unknown), check `has_field_setter` (drop on failure), decode
the payload per field kind (enum-name fields pass the ASCII text through;
switch fields compare the payload bytes against `b'ON'`), build the setter
command, and put one `CommandMessage` on the bus.  There is no
`try`/`except` around `build_setter_command`: a refusal propagates out of
the handler (`crashed`).  A field with a setter but outside both dispatch
lists is dropped as unhandled. -/
def handle_command (devices : List BluettiDevice) (m : MqttMessage) :
    RouterResult :=
  match parseCommandTopic m.topic with
  | none => .dropped ("unknown command topic: " ++ m.topic)
  | some (ty, sn, f) =>
    match findDevice devices ty sn with
    | none => .dropped ("unknown device: " ++ ty ++ " " ++ sn)
    | some device =>
      if !device.has_field_setter f then
        .dropped ("Recevied command for unknown topic: " ++ f)
      else if isEnumSetterField f then
        match device.build_setter_command f (.str m.payload) with
        | .ok cmd => .emitted device cmd
        | .error _ => .crashed
      else if isSwitchSetterField f then
        match device.build_setter_command f (.onOff (m.payload == on_literal)) with
        | .ok cmd => .emitted device cmd
        | .error _ => .crashed
      else
        .dropped ("Recevied command for unhandled topic: " ++ f)

/-- The payload decoding of `_handle_command`, per field kind (spec §4.2
step 4). -/
def decodeSetterValue (f : String) (payload : String) : CmdValue :=
  if isEnumSetterField f then .str payload else .onOff (payload == on_literal)

/-- Modelled from the spec (§4.2 steps 1-4, claim C5): the validation
predicate the claim quantifies over — topic matches the grammar, the device
resolves, and the field is a declared writable field of a handled kind.
Stated spec-side to compare the router against it. -/
def routerValidates (devices : List BluettiDevice) (m : MqttMessage) : Bool :=
  match parseCommandTopic m.topic with
  | none => false
  | some (ty, sn, f) =>
    match findDevice devices ty sn with
    | none => false
    | some d => d.has_field_setter f && (isEnumSetterField f || isSwitchSetterField f)

/-- Modelled from the spec (§4.2 steps 1-5): full acceptance — validation
plus a successful `build_setter_command`. -/
def routerAccepts (devices : List BluettiDevice) (m : MqttMessage) : Bool :=
  match parseCommandTopic m.topic with
  | none => false
  | some (ty, sn, f) =>
    match findDevice devices ty sn with
    | none => false
    | some d =>
      d.has_field_setter f && (isEnumSetterField f || isSwitchSetterField f) &&
        (d.build_setter_command f (decodeSetterValue f m.payload)).isOk

/-- A raw sequence of `_update_value` invocations `(topic, key, value)`
applied to the shared `value_cache` (claim C4 quantifies over these). -/
def runUpdateValues (c : Cache) :
    List (String × String × Payload) → Cache × List Pub
  | [] => (c, [])
  | (t, k, v) :: rest =>
    let r := update_value c t k v
    let r2 := runUpdateValues r.1 rest
    (r2.1, r.2 ++ r2.2)

/-- The publication payloads for one cache key, in emission order. -/
def pubsForKey (k : String) (trace : List Pub) : List Payload :=
  (trace.filter (fun p => p.key == k)).map Pub.value

/-- Topic prefix for device `AC300` serial `500` (source line 367). -/
def statePfxAC300 : String := "bluetti/state/AC300-500/"

/-- The spec §8 end-to-end scenario, at the `_update_energy` call sites that
`_handle_message` reaches for it: `ac_input_power=100` at t = 0 s and
`ac_input_power=200` at t = 10 s (times in microseconds), in a process
started at t0 = 0. -/
def seqScenarioC1 : List (ℤ × String × ℚ) :=
  [(0, ac_input_energy_key, 100), (10000000, ac_input_energy_key, 200)]

/-- Samples for the totals-rounding counterexample: `ac_input_power=288` and
`dc_input_power=288` in one event at t = 0.1 s (exactly what the energy
loop of `_handle_message` performs for that event). -/
def seqRoundingC2 : List (ℤ × String × ℚ) :=
  [(100000, ac_input_energy_key, 288), (100000, dc_input_energy_key, 288)]

/-- Samples for the shared-state counterexample: `ac_input_power=100` at
t = 0.5 s and at t = 1 s. -/
def seqSharedC9 : List (ℤ × String × ℚ) :=
  [(500000, ac_input_energy_key, 100), (1000000, ac_input_energy_key, 100)]

/-- A known device whose `build_setter_command` refuses every request
(`buildSetterCommand -> Command | error`, spec §3). -/
def devRefuse : BluettiDevice :=
  { type := "AC300", sn := "12345", has_field_setter := fun _ => true,
    build_setter_command := fun _ _ => .error () }

/-- A known device that accepts every build request. -/
def devAccept : BluettiDevice :=
  { type := "AC300", sn := "12345", has_field_setter := fun _ => true,
    build_setter_command := fun _ _ => .ok ⟨0⟩ }

/-- A well-formed `ups_mode` command message for `AC300-12345`. -/
def upsCmdMsg : MqttMessage :=
  { topic := "bluetti/command/AC300-12345/ups_mode", payload := "STANDBY" }

/-- An `ac_output_on` command message with payload `ON`. -/
def onCmdMsg : MqttMessage :=
  { topic := "bluetti/command/AC300-12345/ac_output_on", payload := "ON" }

/-- A command message naming a field outside both dispatch lists. -/
def unknownFieldCmdMsg : MqttMessage :=
  { topic := "bluetti/command/AC300-12345/unknown_field", payload := "x" }

/-- A telemetry event carrying `pack_battery_percent` but neither
`cell_voltages` nor `pack_num`. -/
def packMsgMissing : ParserMessage :=
  { deviceType := "AC300", deviceSn := "500",
    parsed := fun k =>
      if k = pack_battery_percent_key then some (.num 42) else none }

/-- A telemetry event carrying complete pack data. -/
def packMsgComplete : ParserMessage :=
  { deviceType := "AC300", deviceSn := "500",
    parsed := fun k =>
      if k = pack_battery_percent_key then some (.num 42)
      else if k = cell_voltages_key then some (.numlist [3, 3])
      else if k = pack_num_key then some (.num 1)
      else none }

/-- A concrete `_update_value` call sequence: two identical values for key
`a`, then a changed one, plus an interleaved key `b`. -/
def cacheCallsW : List (String × String × Payload) :=
  [("t/a", "a", .bytes "100"), ("t/b", "b", .bytes "7"),
   ("t/a", "a", .bytes "100"), ("t/a", "a", .bytes "200")]

/-! ## Theorems -/

theorem update_value_stores (c : Cache) (t k : String) (v : Payload) :
    (update_value c t k v).1 k = some v := by
  by_cases h : c k = some v
  · simp [update_value, h]
  · simp [update_value, h]

theorem update_value_preserves (c : Cache) (t k : String) (v : Payload)
    (k' : String) (h : k' ≠ k) :
    (update_value c t k v).1 k' = c k' := by
  by_cases h2 : c k = some v
  · simp [update_value, h2]
  · simp [update_value, h2, h]

/-- On a nonzero sample, the cache entry for `total_input_energy` afterwards
holds the rounded total of the two input watt-second accumulators of the
post-update state. -/
theorem update_energy_total_in_cache (t0 : ℤ) (st : BridgeState) (now : ℤ)
    (topicPfx energyKey : String) (currentValue : ℚ)
    (h : currentValue ≠ 0) :
    (update_energy t0 st now topicPfx energyKey currentValue).1.value_cache
        total_input_energy_key =
      some (.num (round2
        ((wsOf (update_energy t0 st now topicPfx energyKey currentValue).1
            ac_input_energy_key +
          wsOf (update_energy t0 st now topicPfx energyKey currentValue).1
            dc_input_energy_key) / SECONDS_PER_HOUR))) := by
  simp only [update_energy]
  rw [if_pos h]
  dsimp only
  rw [update_value_preserves _ _ _ _ _ (by decide), update_value_stores]
  rfl

/-- On a nonzero sample, the cache entry for `total_output_energy`
afterwards holds the rounded total of the two output watt-second
accumulators of the post-update state. -/
theorem update_energy_total_out_cache (t0 : ℤ) (st : BridgeState) (now : ℤ)
    (topicPfx energyKey : String) (currentValue : ℚ)
    (h : currentValue ≠ 0) :
    (update_energy t0 st now topicPfx energyKey currentValue).1.value_cache
        total_output_energy_key =
      some (.num (round2
        ((wsOf (update_energy t0 st now topicPfx energyKey currentValue).1
            ac_output_energy_key +
          wsOf (update_energy t0 st now topicPfx energyKey currentValue).1
            dc_output_energy_key) / SECONDS_PER_HOUR))) := by
  simp only [update_energy]
  rw [if_pos h]
  dsimp only
  rw [update_value_stores]
  rfl

/-- On a nonzero sample for an ordinary energy key, the cache entry for that
key afterwards holds the rounded post-update watt-second accumulator. -/
theorem update_energy_key_cache (t0 : ℤ) (st : BridgeState) (now : ℤ)
    (topicPfx energyKey : String) (currentValue : ℚ)
    (h : currentValue ≠ 0)
    (h1 : energyKey ≠ total_input_energy_key)
    (h2 : energyKey ≠ total_output_energy_key) :
    (update_energy t0 st now topicPfx energyKey currentValue).1.value_cache
        energyKey =
      some (.num (round2
        (wsOf (update_energy t0 st now topicPfx energyKey currentValue).1
            energyKey / SECONDS_PER_HOUR))) := by
  simp only [update_energy]
  rw [if_pos h]
  dsimp only
  rw [update_value_preserves _ _ _ _ _ h2, update_value_preserves _ _ _ _ _ h1,
    update_value_stores]
  simp [wsOf, wsOfMap]

/-- `_update_energy` leaves every cache key other than its energy key and
the two totals untouched (also trivially when the sample is zero). -/
theorem update_energy_cache_preserves (t0 : ℤ) (st : BridgeState) (now : ℤ)
    (topicPfx energyKey : String) (currentValue : ℚ) (k : String)
    (hk1 : k ≠ energyKey) (hk2 : k ≠ total_input_energy_key)
    (hk3 : k ≠ total_output_energy_key) :
    (update_energy t0 st now topicPfx energyKey currentValue).1.value_cache
        k = st.value_cache k := by
  by_cases h : currentValue = 0
  · simp [update_energy, h]
  · simp only [update_energy]
    rw [if_pos h]
    dsimp only
    rw [update_value_preserves _ _ _ _ _ hk3, update_value_preserves _ _ _ _ _ hk2,
      update_value_preserves _ _ _ _ _ hk1]

/-- C7: a power sample whose value is exactly 0 performs no update:
`_update_energy` returns the bridge state unchanged (so
`watt_seconds_total`, `last_value` and `last_value_ts` of every key keep
their prior values) and emits no publication. -/
theorem claim_C7_zero_sample_noop (t0 : ℤ) (st : BridgeState) (now : ℤ)
    (topicPfx energyKey : String) :
    update_energy t0 st now topicPfx energyKey 0 = (st, []) := by
  simp [update_energy]

/-- C2 (amended): after every publish triggered by a nonzero sample — from
any prior shared state, hence for all interleavings of input/output
samples — the published (cached) total input energy equals
`round((ws_ac_input + ws_dc_input) / 3600, 2)` computed from the *unrounded*
watt-second accumulators (a missing state counting as zero), and likewise
for the total output energy; the totals are rounded once at publish time
and are not in general the sum of the individually rounded energies. -/
theorem claim_C2_amended_totals (t0 : ℤ) (st : BridgeState) (now : ℤ)
    (topicPfx energyKey : String) (currentValue : ℚ)
    (h : currentValue ≠ 0) :
    (update_energy t0 st now topicPfx energyKey currentValue).1.value_cache
        total_input_energy_key =
      some (.num (round2
        ((wsOf (update_energy t0 st now topicPfx energyKey currentValue).1
            ac_input_energy_key +
          wsOf (update_energy t0 st now topicPfx energyKey currentValue).1
            dc_input_energy_key) / SECONDS_PER_HOUR))) ∧
    (update_energy t0 st now topicPfx energyKey currentValue).1.value_cache
        total_output_energy_key =
      some (.num (round2
        ((wsOf (update_energy t0 st now topicPfx energyKey currentValue).1
            ac_output_energy_key +
          wsOf (update_energy t0 st now topicPfx energyKey currentValue).1
            dc_output_energy_key) / SECONDS_PER_HOUR))) :=
  ⟨update_energy_total_in_cache t0 st now topicPfx energyKey currentValue h,
    update_energy_total_out_cache t0 st now topicPfx energyKey currentValue h⟩

/-- C2 (witness): the amended totals equation at a concrete nonzero
sample. -/
theorem claim_C2_witness :
    (update_energy 0 BridgeState.initial 100000 statePfxAC300
        ac_input_energy_key 288).1.value_cache total_input_energy_key =
      some (.num (round2
        ((wsOf (update_energy 0 BridgeState.initial 100000 statePfxAC300
            ac_input_energy_key 288).1 ac_input_energy_key +
          wsOf (update_energy 0 BridgeState.initial 100000 statePfxAC300
            ac_input_energy_key 288).1 dc_input_energy_key) /
          SECONDS_PER_HOUR))) :=
  (claim_C2_amended_totals 0 BridgeState.initial 100000 statePfxAC300
    ac_input_energy_key 288 (by norm_num)).1

/-- C9 (amended): the accumulator/cache state is class-level and shared, so
a second, independently constructed bridge instance does not start fresh:
running a sequence on a new instance continues exactly where the previous
run left off — it equals the single run of the concatenated sequence (the
update is a deterministic function of the shared state and the input). -/
theorem claim_C9_amended_composition (t0 : ℤ) (topicPfx : String)
    (st : BridgeState) (l1 l2 : List (ℤ × String × ℚ)) :
    (runEnergySamples t0 topicPfx
        (mqttClientConstruct (runEnergySamples t0 topicPfx st l1).1) l2).1 =
      (runEnergySamples t0 topicPfx st (l1 ++ l2)).1 := by
  induction l1 generalizing st with
  | nil => rfl
  | cons a tl ih =>
    obtain ⟨now, k, v⟩ := a
    simpa [runEnergySamples, mqttClientConstruct] using
      ih ((update_energy t0 (mqttClientConstruct st) now topicPfx k v).1)

/-- The publications of one `_update_value` call, restricted to key `k`. -/
theorem pubsForKey_update_value (k : String) (c : Cache) (t k' : String)
    (v : Payload) :
    pubsForKey k (update_value c t k' v).2 =
      if c k' ≠ some v ∧ k' = k then [v] else [] := by
  by_cases hk : k' = k
  · subst hk
    by_cases h : c k' = some v <;> simp [update_value, pubsForKey, h]
  · by_cases h : c k' = some v <;> simp [update_value, pubsForKey, h, hk]

theorem pubsForKey_append (k : String) (l1 l2 : List Pub) :
    pubsForKey k (l1 ++ l2) = pubsForKey k l1 ++ pubsForKey k l2 := by
  simp [pubsForKey]

/-- Invariant for C4: starting from any cache, the stored value for `k`
(viewed as a zero-or-one element prefix) followed by the publications for
`k` is a chain of pairwise-adjacent distinct values. -/
theorem runUpdateValues_chain (k : String) :
    ∀ (calls : List (String × String × Payload)) (c : Cache),
      List.Chain' (· ≠ ·)
        ((c k).toList ++ pubsForKey k (runUpdateValues c calls).2) := by
  intro calls
  induction calls with
  | nil =>
    intro c
    cases h : c k <;> simp [runUpdateValues, pubsForKey, h]
  | cons a rest ih =>
    intro c
    obtain ⟨t, k', v⟩ := a
    simp only [runUpdateValues, pubsForKey_append, pubsForKey_update_value]
    by_cases hk : k' = k
    · subst hk
      by_cases hc : c k' = some v
      · have he : update_value c t k' v = (c, []) := by
          simp [update_value, hc]
        simpa [he, hc] using ih c
      · have he : (update_value c t k' v).1 k' = some v :=
          update_value_stores c t k' v
        have h2 := ih (update_value c t k' v).1
        rw [he] at h2
        cases hcc : c k' with
        | none => simpa [hc, hcc] using h2
        | some w =>
          have hw : w ≠ v := by
            intro hwv
            exact hc (by rw [hcc, hwv])
          simpa [hc, hcc, List.chain'_cons, hw] using h2
    · have he : (update_value c t k' v).1 k = c k :=
        update_value_preserves c t k' v k (fun hkk => hk hkk.symm)
      have h2 := ih (update_value c t k' v).1
      rw [he] at h2
      simpa [hk] using h2

/-- First observation for C4: if the cache holds nothing for `k` and some
call targets `k`, at least one publication for `k` occurs. -/
theorem runUpdateValues_first (k : String) :
    ∀ (calls : List (String × String × Payload)) (c : Cache),
      c k = none → (∃ x ∈ calls, x.2.1 = k) →
      pubsForKey k (runUpdateValues c calls).2 ≠ [] := by
  intro calls
  induction calls with
  | nil =>
    intro c _ hex
    simp at hex
  | cons a rest ih =>
    intro c hc hex
    obtain ⟨t, k', v⟩ := a
    simp only [runUpdateValues, pubsForKey_append, pubsForKey_update_value]
    by_cases hk : k' = k
    · subst hk
      have : c k' ≠ some v := by rw [hc]; exact (by simp)
      simp [this]
    · have he : (update_value c t k' v).1 k = c k :=
        update_value_preserves c t k' v k (fun hkk => hk hkk.symm)
      have hex2 : ∃ x ∈ rest, x.2.1 = k := by
        rcases hex with ⟨x, hx, hxk⟩
        rcases List.mem_cons.mp hx with h1 | h2
        · exact absurd hxk (by rw [h1]; exact hk)
        · exact ⟨x, h2, hxk⟩
      have h2 := ih (update_value c t k' v).1 (by rw [he, hc]) hex2
      simp [hk, h2]

/-- C4: for every key and every sequence of `_update_value` calls starting
from the fresh (empty) cache, no two consecutive publications for that key
carry equal values, and if any call targets the key then the key's first
observation is published. -/
theorem claim_C4_cache_dedup (calls : List (String × String × Payload))
    (k : String) :
    List.Chain' (· ≠ ·) (pubsForKey k (runUpdateValues Cache.empty calls).2) ∧
      ((∃ x ∈ calls, x.2.1 = k) →
        pubsForKey k (runUpdateValues Cache.empty calls).2 ≠ []) := by
  constructor
  · simpa [Cache.empty] using runUpdateValues_chain k calls Cache.empty
  · exact runUpdateValues_first k calls Cache.empty rfl

/-- C4 (witness): the deduplication property evaluated on a concrete call
sequence (the duplicate `100` for key `a` is suppressed; the first
observation of `a` is published). -/
theorem claim_C4_witness :
    List.Chain' (· ≠ ·)
        (pubsForKey "a" (runUpdateValues Cache.empty cacheCallsW).2) ∧
      pubsForKey "a" (runUpdateValues Cache.empty cacheCallsW).2 ≠ [] := by
  refine ⟨(claim_C4_cache_dedup cacheCallsW "a").1,
    (claim_C4_cache_dedup cacheCallsW "a").2 ⟨("t/a", "a", .bytes "100"), ?_, rfl⟩⟩
  simp [cacheCallsW]

/-- A boolean-switch setter field is not an enum-name setter field. -/
theorem switch_field_not_enum (f : String) (hf : isSwitchSetterField f = true) :
    isEnumSetterField f = false := by
  simp only [isSwitchSetterField, Bool.or_eq_true, beq_iff_eq] at hf
  rcases hf with ((h | h) | h) | h <;> subst h <;> decide

/-- C5 (amended): the router emits a `CommandRequest` if and only if the
topic matches the grammar, the device resolves, the field is a declared
writable field of a handled kind, *and* `build_setter_command` succeeds on
the decoded value; whenever one of the four validation steps fails
(non-matching topic, unknown device, unknown or unhandled field) the
message is dropped with a warning — zero requests and no crash.  (The claim
as frozen omits the builder-success condition; see the counterexample.) -/
theorem claim_C5_amended_router (devices : List BluettiDevice)
    (m : MqttMessage) :
    (handle_command devices m).isEmitted = routerAccepts devices m ∧
      (routerValidates devices m = false →
        (handle_command devices m).isDropped = true) := by
  unfold handle_command routerAccepts routerValidates
  cases hp : parseCommandTopic m.topic with
  | none => simp [RouterResult.isEmitted, RouterResult.isDropped]
  | some tsf =>
    obtain ⟨ty, sn, f⟩ := tsf
    cases hd : findDevice devices ty sn with
    | none => simp [hd, RouterResult.isEmitted, RouterResult.isDropped]
    | some d =>
      simp only [hd]
      by_cases hs : d.has_field_setter f = true
      · by_cases he : isEnumSetterField f = true
        · cases hb : d.build_setter_command f (.str m.payload) with
          | ok cmd =>
            simp [hs, he, hb, decodeSetterValue, RouterResult.isEmitted,
              RouterResult.isDropped, Except.isOk, Except.toBool]
          | error e =>
            simp [hs, he, hb, decodeSetterValue, RouterResult.isEmitted,
              RouterResult.isDropped, Except.isOk, Except.toBool]
        · by_cases hw : isSwitchSetterField f = true
          · cases hb : d.build_setter_command f (.onOff (m.payload == on_literal)) with
            | ok cmd =>
              simp [hs, he, hw, hb, decodeSetterValue, RouterResult.isEmitted,
                RouterResult.isDropped, Except.isOk, Except.toBool]
            | error e =>
              simp [hs, he, hw, hb, decodeSetterValue, RouterResult.isEmitted,
                RouterResult.isDropped, Except.isOk, Except.toBool]
          · simp [hs, he, hw, RouterResult.isEmitted, RouterResult.isDropped]
      · simp [hs, RouterResult.isEmitted, RouterResult.isDropped]

/-- C5 (witness): a message that fails validation (unknown field kind) is
dropped — zero requests, no crash. -/
theorem claim_C5_witness :
    (handle_command [devRefuse] unknownFieldCmdMsg).isDropped = true :=
  (claim_C5_amended_router [devRefuse] unknownFieldCmdMsg).2 (by decide)

/-- C5 (counterexample): for the concrete known device `devRefuse` (whose
externally owned `build_setter_command` refuses, as the device interface
permits) and the well-formed `ups_mode` message, every condition of the
claim's biconditional holds — the topic matches the grammar, the
`(type, serialNumber)` pair resolves, the field is declared writable and of
a handled kind — yet the router emits no `CommandRequest`, refuting the
claimed "if and only if". -/
theorem claim_C5_counterexample :
    parseCommandTopic upsCmdMsg.topic = some ("AC300", "12345", ups_mode_key) ∧
      findDevice [devRefuse] "AC300" "12345" = some devRefuse ∧
      devRefuse.has_field_setter ups_mode_key = true ∧
      (isEnumSetterField ups_mode_key || isSwitchSetterField ups_mode_key) = true ∧
      (handle_command [devRefuse] upsCmdMsg).isEmitted = false := by
  refine ⟨by decide, rfl, rfl, by decide, rfl⟩

/-- C6 (amended): when a message has passed topic, device and field
validation but the device refuses to build the setter command, the
exception is *not* caught: `_handle_command` has no handler around
`build_setter_command`, so the failure propagates out of the router
(crash) instead of being dropped with a warning. -/
theorem claim_C6_amended_crash (devices : List BluettiDevice)
    (m : MqttMessage) (ty sn f : String) (d : BluettiDevice)
    (hp : parseCommandTopic m.topic = some (ty, sn, f))
    (hd : findDevice devices ty sn = some d)
    (hs : d.has_field_setter f = true)
    (hh : (isEnumSetterField f || isSwitchSetterField f) = true)
    (hb : d.build_setter_command f (decodeSetterValue f m.payload) = .error ()) :
    handle_command devices m = .crashed := by
  unfold handle_command
  simp only [hp, hd]
  by_cases he : isEnumSetterField f = true
  · rw [decodeSetterValue, if_pos he] at hb
    simp [hs, he, hb]
  · have hw : isSwitchSetterField f = true := by
      rcases Bool.or_eq_true_iff.mp hh with h1 | h2
      · exact absurd h1 he
      · exact h2
    rw [decodeSetterValue, if_neg he] at hb
    simp [hs, he, hw, hb]

/-- C6 (witness): the amended behavior at the concrete refusing device. -/
theorem claim_C6_witness :
    handle_command [devRefuse] upsCmdMsg = .crashed :=
  claim_C6_amended_crash [devRefuse] upsCmdMsg "AC300" "12345" ups_mode_key
    devRefuse (by decide) rfl rfl (by decide) rfl

/-- C6 (counterexample): on a validated message whose build is refused, the
router does not drop the message with a warning — the refusal escapes the
handler (crash), refuting the claim as stated. -/
theorem claim_C6_counterexample :
    (handle_command [devRefuse] upsCmdMsg).isCrashed = true ∧
      (handle_command [devRefuse] upsCmdMsg).isDropped = false := by
  exact ⟨rfl, rfl⟩

/-- C8: for a boolean-switch command field, the payload decodes to `true`
exactly when it is byte-equal to the literal `ON` (anything else, `OFF`
included, decodes to `false`), and a valid such message for a known device
yields exactly one emitted `CommandRequest` carrying the decoded value. -/
theorem claim_C8_switch_decode (devices : List BluettiDevice)
    (m : MqttMessage) (ty sn f : String) (d : BluettiDevice)
    (c : DeviceCommand)
    (hp : parseCommandTopic m.topic = some (ty, sn, f))
    (hd : findDevice devices ty sn = some d)
    (hs : d.has_field_setter f = true)
    (hf : isSwitchSetterField f = true)
    (hb : d.build_setter_command f (.onOff (m.payload == on_literal)) = .ok c) :
    handle_command devices m = .emitted d c ∧
      (m.payload = on_literal → decodeSetterValue f m.payload = .onOff true) ∧
      (m.payload ≠ on_literal → decodeSetterValue f m.payload = .onOff false) := by
  have he : isEnumSetterField f = false := switch_field_not_enum f hf
  refine ⟨?_, ?_, ?_⟩
  · unfold handle_command
    simp only [hp, hd]
    simp [hs, he, hf, hb]
  · intro hpay
    simp [decodeSetterValue, he, hpay]
  · intro hpay
    simp [decodeSetterValue, he, hpay]

/-- C8 (witness): payload `ON` on `ac_output_on` for a known accepting
device emits exactly one request with the decoded value `true`. -/
theorem claim_C8_witness :
    handle_command [devAccept] onCmdMsg = .emitted devAccept ⟨0⟩ ∧
      decodeSetterValue ac_output_on_key on_literal = .onOff true := by
  have h := claim_C8_switch_decode [devAccept] onCmdMsg "AC300" "12345"
    ac_output_on_key devAccept ⟨0⟩ (by decide) rfl rfl (by decide) rfl
  exact ⟨h.1, by simpa using h.2.1 rfl⟩

/-- If `pack_battery_percent` is present but `cell_voltages` or `pack_num`
is missing, the pack branch raises (uncaught `KeyError`). -/
theorem packStep_missing (st : BridgeState) (topicPfx : String)
    (msg : ParserMessage)
    (hp : (msg.parsed pack_battery_percent_key).isSome = true)
    (hmiss : msg.parsed cell_voltages_key = none ∨
      msg.parsed pack_num_key = none) :
    packStep st topicPfx msg = .error () := by
  unfold packStep
  cases h1 : msg.parsed pack_battery_percent_key with
  | none => rw [h1] at hp; exact absurd hp (by simp)
  | some percent =>
    rcases hmiss with hm | hm
    · rw [hm]
    · cases h2 : msg.parsed cell_voltages_key with
      | none => rfl
      | some cv => rw [hm]

/-- If pack data is complete whenever `pack_battery_percent` is present, the
pack branch succeeds. -/
theorem packStep_complete (st : BridgeState) (topicPfx : String)
    (msg : ParserMessage)
    (hcomp : (msg.parsed pack_battery_percent_key).isSome = true →
      (msg.parsed cell_voltages_key).isSome = true ∧
        (msg.parsed pack_num_key).isSome = true) :
    ∃ r, packStep st topicPfx msg = .ok r := by
  unfold packStep
  cases h1 : msg.parsed pack_battery_percent_key with
  | none => exact ⟨_, rfl⟩
  | some percent =>
    obtain ⟨h2', h3'⟩ := hcomp (by rw [h1]; rfl)
    cases h2 : msg.parsed cell_voltages_key with
    | none => rw [h2] at h2'; exact absurd h2' (by simp)
    | some cv =>
      cases h3 : msg.parsed pack_num_key with
      | none => rw [h3] at h3'; exact absurd h3' (by simp)
      | some pn => exact ⟨_, rfl⟩

/-- C10: `_handle_message` is total only when pack data is complete.  For
every event whose fields contain `pack_battery_percent` but lack
`cell_voltages` or `pack_num`, the handler fails with an uncaught lookup
error (it does not ignore or drop the event); and under the precondition
that `pack_battery_percent` implies both `cell_voltages` and `pack_num` are
present, the error branch is unreachable and the handler succeeds. -/
theorem claim_C10_pack_lookup (t0 : ℤ) (st : BridgeState) (now : ℤ)
    (msg : ParserMessage) :
    ((msg.parsed pack_battery_percent_key).isSome = true →
      (msg.parsed cell_voltages_key = none ∨ msg.parsed pack_num_key = none) →
      (handle_message t0 st now msg).isOk = false) ∧
    (((msg.parsed pack_battery_percent_key).isSome = true →
        (msg.parsed cell_voltages_key).isSome = true ∧
          (msg.parsed pack_num_key).isSome = true) →
      (handle_message t0 st now msg).isOk = true) := by
  constructor
  · intro hp hmiss
    simp only [handle_message]
    rw [packStep_missing _ _ msg hp hmiss]
    rfl
  · intro hcomp
    simp only [handle_message]
    obtain ⟨r, hr⟩ := packStep_complete
      (energyLoop t0 now
        ("bluetti/state/" ++ msg.deviceType ++ "-" ++ msg.deviceSn ++ "/") msg
        (st, [])).1
      ("bluetti/state/" ++ msg.deviceType ++ "-" ++ msg.deviceSn ++ "/")
      msg hcomp
    rw [hr]
    rfl

/-- C10 (witness): the incomplete pack event fails; the complete one
succeeds. -/
theorem claim_C10_witness :
    (handle_message 0 BridgeState.initial 0 packMsgMissing).isOk = false ∧
      (handle_message 0 BridgeState.initial 0 packMsgComplete).isOk = true :=
  ⟨(claim_C10_pack_lookup 0 BridgeState.initial 0 packMsgMissing).1
      (by decide) (Or.inl (by decide)),
    (claim_C10_pack_lookup 0 BridgeState.initial 0 packMsgComplete).2
      (fun _ => ⟨by decide, by decide⟩)⟩

/-- C1: refuted by the code — evidence for the slip.  In the spec's
end-to-end scenario (`ac_input_power = 100` at t = 0 s, then `200` at
t = 10 s, process started at t0 = 0), the trapezoidal rule gives
`round(10 × (100+200)/2 / 3600, 2) = 0.42` Wh (second conjunct), but the
code computes the time delta with `timedelta.microseconds` — the
sub-second *component* only, here `10 s mod 1 s = 0` — so the accumulator
stays at 0 and the published/cached `ac_input_energy` after the second
sample is `0.0`, not `0.42`. -/
theorem claim_C1_trapezoid_scenario :
    (runEnergySamples 0 statePfxAC300 BridgeState.initial
        seqScenarioC1).1.value_cache ac_input_energy_key = some (.num 0) ∧
      round2 ((10 * ((100 + 200) / 2)) / SECONDS_PER_HOUR) = 42 / 100 ∧
      (0 : ℚ) ≠ 42 / 100 := by
  have hws : wsOf (runEnergySamples 0 statePfxAC300 BridgeState.initial
      seqScenarioC1).1 ac_input_energy_key = 0 := by
    norm_num [runEnergySamples, update_energy, update_value, seqScenarioC1,
      statePfxAC300, BridgeState.initial, Cache.empty, EnergyEntry.fresh,
      tdMicroseconds, MICROSECONDS_PER_SECOND, SECONDS_PER_HOUR, round2,
      roundHalfEven, wsOf, wsOfMap, ac_input_energy_key, dc_input_energy_key,
      ac_output_energy_key, dc_output_energy_key, total_input_energy_key,
      total_output_energy_key]
  have hcache : (runEnergySamples 0 statePfxAC300 BridgeState.initial
      seqScenarioC1).1.value_cache ac_input_energy_key =
      some (.num (round2 (wsOf (runEnergySamples 0 statePfxAC300
        BridgeState.initial seqScenarioC1).1 ac_input_energy_key /
        SECONDS_PER_HOUR))) :=
    update_energy_key_cache 0
      (update_energy 0 BridgeState.initial 0 statePfxAC300
        ac_input_energy_key 100).1 10000000 statePfxAC300
      ac_input_energy_key 200 (by norm_num) (by decide) (by decide)
  rw [hws] at hcache
  have h0 : round2 (0 / SECONDS_PER_HOUR) = 0 := by
    norm_num [round2, roundHalfEven, SECONDS_PER_HOUR]
  rw [h0] at hcache
  exact ⟨hcache, by norm_num [round2, roundHalfEven, SECONDS_PER_HOUR],
    by norm_num⟩

/-- C3: refuted by the code — evidence for the slip.  Reaching the state
`last_value = 100, last_value_ts = 1 s, watt_seconds_total = 0` (first
sample at t = 1 s from process start t0 = 0), a second sample of 100 W at
the *earlier* time t = 0.5 s is not a no-op: the code adds
`(-0.5 s mod 1 s) × 100 = 50` watt-seconds and rewinds `last_value_ts` to
0.5 s, corrupting the accumulator instead of rejecting the negative time
delta. -/
theorem claim_C3_backward_time_adds_energy :
    wsOf (update_energy 0 BridgeState.initial 1000000 statePfxAC300
        ac_input_energy_key 100).1 ac_input_energy_key = 0 ∧
      (update_energy 0 (update_energy 0 BridgeState.initial 1000000
            statePfxAC300 ac_input_energy_key 100).1 500000 statePfxAC300
          ac_input_energy_key 100).1.calculated_energy ac_input_energy_key =
        some { last_value := 100, watt_seconds_total := 50,
               last_value_ts := 500000 } ∧
      (50 : ℚ) ≠ 0 := by
  refine ⟨?_, ?_, by norm_num⟩
  · norm_num [update_energy, update_value, statePfxAC300,
      BridgeState.initial, Cache.empty, EnergyEntry.fresh, tdMicroseconds,
      MICROSECONDS_PER_SECOND, SECONDS_PER_HOUR, round2, roundHalfEven,
      wsOf, wsOfMap, ac_input_energy_key, dc_input_energy_key,
      ac_output_energy_key, dc_output_energy_key, total_input_energy_key,
      total_output_energy_key]
  · norm_num [update_energy, update_value, statePfxAC300,
      BridgeState.initial, Cache.empty, EnergyEntry.fresh, tdMicroseconds,
      MICROSECONDS_PER_SECOND, SECONDS_PER_HOUR, round2, roundHalfEven,
      wsOf, wsOfMap, ac_input_energy_key, dc_input_energy_key,
      ac_output_energy_key, dc_output_energy_key, total_input_energy_key,
      total_output_energy_key]

/-- C2 (counterexample): after `ac_input_power = 288` and
`dc_input_power = 288` in one event at t = 0.1 s (process start t0 = 0,
accumulators at 14.4 Ws each), the code publishes
`total_input_energy = round(28.8/3600, 2) = 0.01`, while both published
energies are `round(14.4/3600, 2) = 0.0`; the claimed identity
`total = round(ac_energy + dc_energy, 2) = 0.0` fails. -/
theorem claim_C2_counterexample :
    (runEnergySamples 0 statePfxAC300 BridgeState.initial
        seqRoundingC2).1.value_cache total_input_energy_key =
      some (.num (1 / 100)) ∧
      (runEnergySamples 0 statePfxAC300 BridgeState.initial
          seqRoundingC2).1.value_cache ac_input_energy_key = some (.num 0) ∧
      (runEnergySamples 0 statePfxAC300 BridgeState.initial
          seqRoundingC2).1.value_cache dc_input_energy_key = some (.num 0) ∧
      round2 (0 + 0) ≠ (1 / 100 : ℚ) := by
  have hwsAc : wsOf (runEnergySamples 0 statePfxAC300 BridgeState.initial
      seqRoundingC2).1 ac_input_energy_key = 72 / 5 := by
    simp [runEnergySamples, update_energy, update_value, seqRoundingC2,
      statePfxAC300, BridgeState.initial, Cache.empty, EnergyEntry.fresh,
      tdMicroseconds, MICROSECONDS_PER_SECOND, SECONDS_PER_HOUR, round2,
      roundHalfEven, wsOf, wsOfMap, ac_input_energy_key, dc_input_energy_key,
      ac_output_energy_key, dc_output_energy_key, total_input_energy_key,
      total_output_energy_key]
    norm_num
  have hwsDc : wsOf (runEnergySamples 0 statePfxAC300 BridgeState.initial
      seqRoundingC2).1 dc_input_energy_key = 72 / 5 := by
    simp [runEnergySamples, update_energy, update_value, seqRoundingC2,
      statePfxAC300, BridgeState.initial, Cache.empty, EnergyEntry.fresh,
      tdMicroseconds, MICROSECONDS_PER_SECOND, SECONDS_PER_HOUR, round2,
      roundHalfEven, wsOf, wsOfMap, ac_input_energy_key, dc_input_energy_key,
      ac_output_energy_key, dc_output_energy_key, total_input_energy_key,
      total_output_energy_key]
    norm_num
  have hws1 : wsOf (update_energy 0 BridgeState.initial 100000 statePfxAC300
      ac_input_energy_key 288).1 ac_input_energy_key = 72 / 5 := by
    simp [update_energy, update_value, statePfxAC300,
      BridgeState.initial, Cache.empty, EnergyEntry.fresh, tdMicroseconds,
      MICROSECONDS_PER_SECOND, SECONDS_PER_HOUR, round2, roundHalfEven,
      wsOf, wsOfMap, ac_input_energy_key, dc_input_energy_key,
      ac_output_energy_key, dc_output_energy_key, total_input_energy_key,
      total_output_energy_key]
    norm_num
  refine ⟨?_, ?_, ?_, ?_⟩
  · have h := update_energy_total_in_cache 0
      (update_energy 0 BridgeState.initial 100000 statePfxAC300
        ac_input_energy_key 288).1 100000 statePfxAC300
      dc_input_energy_key 288 (by norm_num)
    rw [show ((update_energy 0 (update_energy 0 BridgeState.initial 100000
        statePfxAC300 ac_input_energy_key 288).1 100000 statePfxAC300
        dc_input_energy_key 288).1 : BridgeState) =
        (runEnergySamples 0 statePfxAC300 BridgeState.initial
          seqRoundingC2).1 from rfl] at h
    rw [hwsAc, hwsDc] at h
    rw [h]
    norm_num [round2, roundHalfEven, SECONDS_PER_HOUR]
  · have h := update_energy_cache_preserves 0
      (update_energy 0 BridgeState.initial 100000 statePfxAC300
        ac_input_energy_key 288).1 100000 statePfxAC300
      dc_input_energy_key 288 ac_input_energy_key (by decide) (by decide)
      (by decide)
    have h2 := update_energy_key_cache 0 BridgeState.initial 100000
      statePfxAC300 ac_input_energy_key 288 (by norm_num) (by decide)
      (by decide)
    rw [hws1] at h2
    rw [h2] at h
    rw [show ((update_energy 0 (update_energy 0 BridgeState.initial 100000
        statePfxAC300 ac_input_energy_key 288).1 100000 statePfxAC300
        dc_input_energy_key 288).1 : BridgeState) =
        (runEnergySamples 0 statePfxAC300 BridgeState.initial
          seqRoundingC2).1 from rfl] at h
    rw [h]
    norm_num [round2, roundHalfEven, SECONDS_PER_HOUR]
  · have h := update_energy_key_cache 0
      (update_energy 0 BridgeState.initial 100000 statePfxAC300
        ac_input_energy_key 288).1 100000 statePfxAC300
      dc_input_energy_key 288 (by norm_num) (by decide) (by decide)
    rw [show ((update_energy 0 (update_energy 0 BridgeState.initial 100000
        statePfxAC300 ac_input_energy_key 288).1 100000 statePfxAC300
        dc_input_energy_key 288).1 : BridgeState) =
        (runEnergySamples 0 statePfxAC300 BridgeState.initial
          seqRoundingC2).1 from rfl] at h
    rw [hwsDc] at h
    rw [h]
    norm_num [round2, roundHalfEven, SECONDS_PER_HOUR]
  · norm_num [round2, roundHalfEven]

/-- C9 (counterexample): `value_cache`/`calculated_energy` are class
attributes, so a second, independently constructed `MQTTClient` instance
(`mqttClientConstruct` leaves the shared state untouched) fed the same
sample sequence continues from the first run's state: the first run of
`seqSharedC9` accumulates 75 Ws for `ac_input_energy`, the second run of
the *same* sequence ends at 175 Ws — not identical, refuting instance
independence. -/
theorem claim_C9_counterexample :
    wsOf (runEnergySamples 0 statePfxAC300 BridgeState.initial
        seqSharedC9).1 ac_input_energy_key = 75 ∧
      wsOf (runEnergySamples 0 statePfxAC300
          (mqttClientConstruct (runEnergySamples 0 statePfxAC300
            BridgeState.initial seqSharedC9).1) seqSharedC9).1
        ac_input_energy_key = 175 ∧
      (75 : ℚ) ≠ 175 := by
  refine ⟨?_, ?_, by norm_num⟩ <;>
    norm_num [runEnergySamples, update_energy, update_value, seqSharedC9,
      mqttClientConstruct, statePfxAC300, BridgeState.initial, Cache.empty,
      EnergyEntry.fresh, tdMicroseconds, MICROSECONDS_PER_SECOND,
      SECONDS_PER_HOUR, round2, roundHalfEven, wsOf, wsOfMap,
      ac_input_energy_key, dc_input_energy_key, ac_output_energy_key,
      dc_output_energy_key, total_input_energy_key, total_output_energy_key]

end BluettiMqtt
